import Mathlib

/-!  Shallow embedding of the Model Orchestration Layer (src/core/ai/model_manager.py)
and the TTL Session Store (src/core/database.py) of the conversational backend.
Mutable state is passed explicitly; Python floats are modelled as exact rationals;
fallible Python code returns `Except`.  -/

/-- Whether `needle` is a prefix of `hay` (on character lists). -/
def chars_start_with : List Char → List Char → Bool
  | [], _ => true
  | _ :: _, [] => false
  | a :: as, b :: bs => a = b && chars_start_with as bs

/-- Whether `needle` occurs contiguously in `hay` (on character lists). -/
def chars_infix_search (needle : List Char) : List Char → Bool
  | [] => needle.isEmpty
  | c :: rest => chars_start_with needle (c :: rest) || chars_infix_search needle rest

/-- Python substring test `needle in hay` on strings (contiguous containment;
the empty needle is contained in everything, as in Python). -/
def str_contains (hay needle : String) : Bool :=
  chars_infix_search needle.toList hay.toList

/-- Python `s.lower()` (character-wise lowering). -/
def py_lower (s : String) : String :=
  String.mk (s.toList.map Char.toLower)

/-- Python `s.replace(old, new)` for a one-character pattern and replacement,
as used in `_update_usage_stats` (`config.name.replace("-", "_")`). -/
def replace_char (s : String) (old new : Char) : String :=
  String.mk (s.toList.map (fun c => if c = old then new else c))

/-- `ModelType` enum (model_manager.py lines 27-34). -/
inductive ModelType
  | chat
  | vision
  | audio
  | reasoning
  | fast_reasoning
  | embeddings
deriving DecidableEq

/-- `ModelType.value`: the string payload of each enum member. -/
def ModelType.value : ModelType → String
  | .chat => "chat"
  | .vision => "vision"
  | .audio => "audio"
  | .reasoning => "reasoning"
  | .fast_reasoning => "fast_reasoning"
  | .embeddings => "embeddings"

/-- The configuration values (core/config.py `settings`) consumed by the two
embedded modules.  Deployment names are free parameters; the session timeout
is in minutes (`CONVERSATION_TIMEOUT_MINUTES`). -/
structure Settings where
  AZURE_CHAT_DEPLOYMENT : String
  AZURE_VISION_DEPLOYMENT : String
  AZURE_AUDIO_DEPLOYMENT : String
  AZURE_REASONING_DEPLOYMENT : String
  AZURE_FAST_REASONING_DEPLOYMENT : String
  AZURE_EMBEDDINGS_DEPLOYMENT : String
  CONVERSATION_TIMEOUT_MINUTES : Nat

/-- `ModelConfig` dataclass (model_manager.py lines 37-48). -/
structure ModelConfig where
  name : String
  deployment : String
  max_tokens : Nat
  cost_per_1k_input : ℚ
  cost_per_1k_output : ℚ
  capabilities : List String
  context_window : Nat
  supports_functions : Bool
  supports_streaming : Bool
deriving DecidableEq

/-- The `self.models` dict built by `_setup_model_configs` (lines 75-144),
keyed by `ModelType`. -/
def models (s : Settings) : ModelType → ModelConfig
  | .chat =>
    { name := "gpt-4o-mini", deployment := s.AZURE_CHAT_DEPLOYMENT,
      max_tokens := 128000, cost_per_1k_input := 0.000150, cost_per_1k_output := 0.000600,
      capabilities := ["text", "vision"], context_window := 128000,
      supports_functions := true, supports_streaming := true }
  | .vision =>
    { name := "gpt-4o-mini-vision", deployment := s.AZURE_VISION_DEPLOYMENT,
      max_tokens := 128000, cost_per_1k_input := 0.000150, cost_per_1k_output := 0.000600,
      capabilities := ["text", "vision", "image_analysis"], context_window := 128000,
      supports_functions := true, supports_streaming := true }
  | .audio =>
    { name := "gpt-4o-mini-audio", deployment := s.AZURE_AUDIO_DEPLOYMENT,
      max_tokens := 128000, cost_per_1k_input := 0.000150, cost_per_1k_output := 0.000600,
      capabilities := ["text", "audio", "speech_recognition"], context_window := 128000,
      supports_functions := true, supports_streaming := false }
  | .reasoning =>
    { name := "o1", deployment := s.AZURE_REASONING_DEPLOYMENT,
      max_tokens := 100000, cost_per_1k_input := 0.015, cost_per_1k_output := 0.060,
      capabilities := ["advanced_reasoning", "complex_analysis"], context_window := 200000,
      supports_functions := false, supports_streaming := false }
  | .fast_reasoning =>
    { name := "o3-mini", deployment := s.AZURE_FAST_REASONING_DEPLOYMENT,
      max_tokens := 65536, cost_per_1k_input := 0.006, cost_per_1k_output := 0.024,
      capabilities := ["reasoning", "analysis", "decision_making"], context_window := 128000,
      supports_functions := true, supports_streaming := true }
  | .embeddings =>
    { name := "text-embedding-3-small", deployment := s.AZURE_EMBEDDINGS_DEPLOYMENT,
      max_tokens := 8191, cost_per_1k_input := 0.000020, cost_per_1k_output := 0.0,
      capabilities := ["embeddings", "semantic_search"], context_window := 8191,
      supports_functions := false, supports_streaming := false }

/-- Python dict insertion order of `self.models` (lines 77-144), the order
`self.models.values()` iterates in. -/
def model_types_order : List ModelType :=
  [.chat, .vision, .audio, .reasoning, .fast_reasoning, .embeddings]

/-- `self.models.values()` in iteration order. -/
def models_values (s : Settings) : List ModelConfig :=
  model_types_order.map (models s)

/-- `ModelUsage` dataclass (lines 51-59), the per-profile Usage Ledger entry. -/
structure ModelUsage where
  total_requests : Nat
  total_tokens_input : Nat
  total_tokens_output : Nat
  total_cost : ℚ
  average_latency_ms : ℚ
  error_count : Nat
deriving DecidableEq

/-- Field defaults of `ModelUsage` (all zero). -/
def ModelUsage.init : ModelUsage :=
  { total_requests := 0, total_tokens_input := 0, total_tokens_output := 0,
    total_cost := 0, average_latency_ms := 0, error_count := 0 }

/-- `self.usage_stats`: one `ModelUsage` per model type.  The Python dict is
keyed by `model_type.value`; the six keys are in bijection with `ModelType`,
so the map is indexed by `ModelType` here. -/
abbrev UsageStats := ModelType → ModelUsage

/-- Stats map with every profile at the dataclass defaults (lines 146-148). -/
def init_usage_stats : UsageStats := fun _ => ModelUsage.init

/-- Point update of the stats map (assignment to `self.usage_stats[k]`). -/
def UsageStats.set (u : UsageStats) (mt : ModelType) (v : ModelUsage) : UsageStats :=
  fun x => if x = mt then v else u x

/-- Python-level exceptions that cross the embedded code:
`stop_iteration` is the `StopIteration` escaping the `next(...)` generator in
`_update_usage_stats` (surfaced as `RuntimeError("coroutine raised StopIteration")`
inside the coroutine); `attribute_error` models `AttributeError`; `provider_error`
is any exception raised by the provider client, carrying `str(e)`. -/
inductive PyErr
  | stop_iteration
  | attribute_error (msg : String)
  | provider_error (msg : String)
deriving DecidableEq

/-- Python `str(e)` for the modelled exceptions. -/
def PyErr.py_str : PyErr → String
  | .stop_iteration => "coroutine raised StopIteration"
  | .attribute_error msg => msg
  | .provider_error msg => msg

/-- `_calculate_cost` (lines 474-478). -/
def calculate_cost (model_config : ModelConfig) (input_tokens output_tokens : Nat) : ℚ :=
  (input_tokens : ℚ) / 1000 * model_config.cost_per_1k_input
    + (output_tokens : ℚ) / 1000 * model_config.cost_per_1k_output

/-- The generator expression in `_update_usage_stats` (lines 468-471):
`next(config for config in self.models.values() if config.name.replace("-", "_") in model_name)`,
as the first match of the predicate over the dict values, `none` when the
generator is exhausted (in which case `next` raises `StopIteration`). -/
def find_cost_config (s : Settings) (model_name : String) : Option ModelConfig :=
  (models_values s).find? fun config =>
    str_contains model_name (replace_char config.name '-' '_')

/-- `_update_usage_stats` (lines 454-472).  The caller always passes
`model_type.value` as `model_name`, so the argument is a `ModelType` here.
Mutations are applied in source order; the returned `Except` records whether
the cost-config lookup raised, with all mutations made before the raise kept
(Python object mutation is not rolled back). -/
def update_usage_stats (s : Settings) (stats : UsageStats) (model_name : ModelType)
    (input_tokens output_tokens : Nat) (processing_time : ℚ) :
    UsageStats × Except PyErr Unit :=
  let st0 := stats model_name
  let st1 : ModelUsage :=
    { st0 with
      total_requests := st0.total_requests + 1
      total_tokens_input := st0.total_tokens_input + input_tokens
      total_tokens_output := st0.total_tokens_output + output_tokens }
  let total_time : ℚ :=
    st1.average_latency_ms * ((st1.total_requests : ℚ) - 1) + processing_time * 1000
  let st2 : ModelUsage := { st1 with average_latency_ms := total_time / (st1.total_requests : ℚ) }
  match find_cost_config s model_name.value with
  | some model_config =>
      (stats.set model_name
        ({ st2 with total_cost := st2.total_cost + calculate_cost model_config input_tokens output_tokens }),
       .ok ())
  | none => (stats.set model_name st2, .error .stop_iteration)

/-- No configured model name, dash-normalized, is a substring of any
`ModelType.value` key, so the cost-config generator in `_update_usage_stats`
is always exhausted. -/
theorem find_cost_config_none (s : Settings) (mt : ModelType) :
    find_cost_config s mt.value = none := by
  cases mt <;> rfl

/-- `select_optimal_model` (model_manager.py lines 218-241): hint-based routing. -/
def select_optimal_model (task_type complexity speed_requirement : String) : ModelType :=
  if task_type = "embedding" then
    ModelType.embeddings
  else if task_type = "vision" ∨ str_contains (py_lower task_type) "image" = true then
    ModelType.vision
  else if task_type = "audio" ∨ str_contains (py_lower task_type) "speech" = true then
    ModelType.audio
  else if task_type = "reasoning" ∨ complexity = "high" then
    (if speed_requirement = "fast" then ModelType.fast_reasoning else ModelType.reasoning)
  else if complexity = "low" ∧ speed_requirement = "fast" then
    ModelType.fast_reasoning
  else
    ModelType.chat

/-- One item of a structured (multi-part) message content: a dict with a
`type` tag, a `text` payload (`""` when the key is absent, as `.get("text", "")`
yields), and further payload irrelevant to the embedded logic. -/
structure ContentItem where
  type : String
  text : String
deriving DecidableEq

/-- `message.get("content")`: a plain string, a list of parts, or anything
else (absent key or non-string non-list value, which the token counter skips). -/
inductive MessageContent
  | text (s : String)
  | parts (items : List ContentItem)
  | absent
deriving DecidableEq

/-- A conversation message as consumed by the Model Router. -/
structure Message where
  role : String
  content : MessageContent
deriving DecidableEq

/-- Tokens counted for one part of a multimodal content list
(`validate_input_length` lines 260-262): only parts tagged `"text"` count. -/
def count_part_tokens (count_tokens : String → Nat) (item : ContentItem) : Nat :=
  if item.type = "text" then count_tokens item.text else 0

/-- Tokens counted for one message (`validate_input_length` lines 255-262). -/
def message_tokens (count_tokens : String → Nat) (m : Message) : Nat :=
  match m.content with
  | .text s => count_tokens s
  | .parts items => (items.map (count_part_tokens count_tokens)).sum
  | .absent => 0

/-- The typed error taxonomy raised by the embedded code (core/exceptions.py),
with the constructor payloads the source passes. -/
inductive ErrorContext
  | messages (l : List Message)
  | texts (l : List String)
deriving DecidableEq

/-- AI-model errors surfaced by the Model Router (core/exceptions.py lines 35-80). -/
inductive AiError
  | model_init_error (model_name detail : String)
  | model_inference_error (model_name detail : String) (input_data : ErrorContext)
  | token_limit_exceeded (model_name : String) (token_count max_tokens : Nat)
  | rate_limit_exceeded (service : String)
deriving DecidableEq

/-- `validate_input_length` (lines 251-273): sums estimated tokens over all
textual message content and raises `TokenLimitExceededError` when the sum
strictly exceeds the profile's `context_window`; returns `True` otherwise.
The token estimator `count_tokens` (lines 243-249, tiktoken-backed) is a
parameter of the embedding. -/
def validate_input_length (s : Settings) (count_tokens : String → Nat)
    (messages : List Message) (model_type : ModelType) : Except AiError Bool :=
  let total_tokens := (messages.map (message_tokens count_tokens)).sum
  let max_tokens := (models s model_type).context_window
  if total_tokens > max_tokens then
    .error (.token_limit_exceeded (models s model_type).name total_tokens max_tokens)
  else
    .ok true

/-- The mutable `ModelManager` state threaded through the call paths:
the `initialized` flag and the Usage Ledger. -/
structure ManagerState where
  inited : Bool
  usage_stats : UsageStats

/-- The provider's reply to a non-streaming chat completion:
`choices[0].message.content` and the `usage` block. -/
structure ChatResponse where
  content : String
  prompt_tokens : Nat
  completion_tokens : Nat
  total_tokens : Nat
deriving DecidableEq

/-- The dict returned by `chat_completion`: the streaming shape
(lines 319-320) or the completed shape (lines 343-352). -/
inductive ChatResult
  | streaming (processing_time : ℚ)
  | completed (content : String) (prompt_tokens completion_tokens total_tokens : Nat)
      (processing_time : ℚ) (model : String)
deriving DecidableEq

/-- Outcome of one call path: the post-call manager state, the returned value
or raised error, and how many times the provider client was invoked. -/
structure CallOutcome (α : Type) where
  state : ManagerState
  result : Except AiError α
  provider_calls : Nat

/-- Model resolution at the top of `chat_completion` (lines 283-285):
an explicit `model_type`, or `select_optimal_model("chat")` with the
default hints `complexity="medium"`, `speed_requirement="normal"`. -/
def resolve_model_type (model_type? : Option ModelType) : ModelType :=
  match model_type? with
  | some mt => mt
  | none => select_optimal_model "chat" "medium" "normal"

/-- The `except`-handler of `chat_completion` (lines 354-365): bump
`error_count`, then classify `str(e)` — rate-limit pattern ⇒
`RateLimitExceededError("Azure OpenAI")`, anything else ⇒
`ModelInferenceError(model_config.name, str(e), {"messages": messages})`. -/
def chat_except_handler (s : Settings) (st : ManagerState) (model_type : ModelType)
    (messages : List Message) (stats : UsageStats) (e : PyErr) (calls : Nat) :
    CallOutcome ChatResult :=
  let stats1 := stats.set model_type
    ({ (stats model_type) with error_count := (stats model_type).error_count + 1 })
  if str_contains (py_lower e.py_str) "rate limit" = true then
    { state := { st with usage_stats := stats1 },
      result := .error (.rate_limit_exceeded "Azure OpenAI"),
      provider_calls := calls }
  else
    { state := { st with usage_stats := stats1 },
      result := .error (.model_inference_error (models s model_type).name e.py_str
                          (.messages messages)),
      provider_calls := calls }

/-- `chat_completion` (lines 275-365).  The provider dispatch
(`self.client.chat.completions.create`, after the client's internal bounded
retries) is an oracle `provider`; wall-clock elapsed time is the oracle
`processing_time`.  Control flow in source order: initialization guard, model
resolution, budget validation (before the `try` block, so its error is never
caught there), dispatch, then either the streaming early return, or success
accounting — whose own exception (see `update_usage_stats`) is caught by the
same `except`-handler as a dispatch failure. -/
def chat_completion (s : Settings) (count_tokens : String → Nat) (st : ManagerState)
    (messages : List Message) (model_type? : Option ModelType) (stream : Bool)
    (provider : Except PyErr ChatResponse) (processing_time : ℚ) :
    CallOutcome ChatResult :=
  if st.inited = false then
    { state := st,
      result := .error (.model_init_error "ModelManager" "Manager not initialized"),
      provider_calls := 0 }
  else
    let model_type := resolve_model_type model_type?
    let model_config := models s model_type
    match validate_input_length s count_tokens messages model_type with
    | .error e => { state := st, result := .error e, provider_calls := 0 }
    | .ok _ =>
      match provider with
      | .error e => chat_except_handler s st model_type messages st.usage_stats e 1
      | .ok response =>
        if stream = true then
          { state := st, result := .ok (.streaming processing_time), provider_calls := 1 }
        else
          match update_usage_stats s st.usage_stats model_type
                  response.prompt_tokens response.completion_tokens processing_time with
          | (stats1, .ok _) =>
            { state := { st with usage_stats := stats1 },
              result := .ok (.completed response.content response.prompt_tokens
                response.completion_tokens response.total_tokens processing_time
                model_config.name),
              provider_calls := 1 }
          | (stats1, .error e) => chat_except_handler s st model_type messages stats1 e 1

/-- `generate_embeddings` (lines 367-419).  There is no budget validation on
this path.  The `except`-handler (lines 415-419) always raises
`ModelInferenceError` — no rate-limit classification — and it also catches the
accounting call's own exception. -/
def generate_embeddings (s : Settings) (count_tokens : String → Nat) (st : ManagerState)
    (texts : List String) (provider : Except PyErr (List (List ℚ))) (processing_time : ℚ) :
    CallOutcome (List (List ℚ)) :=
  if st.inited = false then
    { state := st,
      result := .error (.model_init_error "ModelManager" "Manager not initialized"),
      provider_calls := 0 }
  else
    let model_config := models s ModelType.embeddings
    match provider with
    | .error e =>
      let bumped := ({ (st.usage_stats ModelType.embeddings) with
        error_count := (st.usage_stats ModelType.embeddings).error_count + 1 })
      { state := { st with usage_stats := st.usage_stats.set ModelType.embeddings bumped },
        result := .error (.model_inference_error model_config.name e.py_str (.texts texts)),
        provider_calls := 1 }
    | .ok data =>
      let total_tokens := (texts.map count_tokens).sum
      match update_usage_stats s st.usage_stats .embeddings total_tokens 0 processing_time with
      | (stats1, .ok _) =>
        { state := { st with usage_stats := stats1 }, result := .ok data, provider_calls := 1 }
      | (stats1, .error e) =>
        let bumped := ({ (stats1 ModelType.embeddings) with
          error_count := (stats1 ModelType.embeddings).error_count + 1 })
        { state := { st with usage_stats := stats1.set ModelType.embeddings bumped },
          result := .error (.model_inference_error model_config.name e.py_str (.texts texts)),
          provider_calls := 1 }

/-- The prompt text `analyze_image` puts in the text part (line 433). -/
def analyze_prompt (prompt : Option String) : String :=
  match prompt with
  | some p => p
  | none => "Analyze this image and describe what you see."

/-- The message list `analyze_image` builds (lines 427-444): one user message
with a text part and an image part. -/
def analyze_image_messages (prompt : Option String) : List Message :=
  [{ role := "user",
     content := .parts [{ type := "text", text := analyze_prompt prompt },
                        { type := "image_url", text := "" }] }]

/-- `analyze_image` (lines 421-452): delegates to `chat_completion` with the
Vision profile, `stream` unset (false), and returns `response["content"]`.
A streaming-shaped reply has no `"content"` key; that arm is modelled as
`none` (unreachable here, since `stream=false` is passed). -/
def analyze_image (s : Settings) (count_tokens : String → Nat) (st : ManagerState)
    (prompt : Option String) (provider : Except PyErr ChatResponse)
    (processing_time : ℚ) : CallOutcome (Option String) :=
  let out := chat_completion s count_tokens st (analyze_image_messages prompt)
    (some .vision) false provider processing_time
  { state := out.state,
    provider_calls := out.provider_calls,
    result :=
      match out.result with
      | .error e => .error e
      | .ok (.completed content _ _ _ _ _) => .ok (some content)
      | .ok (.streaming _) => .ok none }

/-- Python `round` to an integer: nearest integer, ties to even
(banker's rounding), on exact rationals. -/
def py_round_int (x : ℚ) : ℤ :=
  let f : ℤ := Int.floor x
  let frac : ℚ := x - (f : ℚ)
  if frac < 1 / 2 then f
  else if 1 / 2 < frac then f + 1
  else if 2 ∣ f then f else f + 1

/-- Python `round(x, ndigits)` on exact rationals. -/
def py_round (x : ℚ) (ndigits : Nat) : ℚ :=
  (py_round_int (x * (10 : ℚ) ^ ndigits) : ℚ) / (10 : ℚ) ^ ndigits

/-- The `usage` sub-dict of one `get_status` entry (lines 494-501). -/
structure ModelStatusUsage where
  total_requests : Nat
  total_cost : ℚ
  average_latency_ms : ℚ
  error_rate : ℚ
deriving DecidableEq

/-- One entry of the `get_status` report (lines 490-502), keyed by the
config's model name. -/
structure ModelStatusEntry where
  model_name : String
  deployment : String
  capabilities : List String
  usage : ModelStatusUsage
deriving DecidableEq

/-- The value returned by `get_status` (lines 480-504): the
`{"status": "not_initialized"}` dict, or the per-model status map in dict
iteration order. -/
inductive StatusReport
  | not_inited
  | ready (entries : List ModelStatusEntry)
deriving DecidableEq

/-- Accessor for the entries of a ready status report. -/
def status_entries : StatusReport → List ModelStatusEntry
  | .not_inited => []
  | .ready entries => entries

/-- `get_status` (lines 480-504).  Note the reported `error_rate` is
`round(error_count / max(total_requests, 1) * 100, 2)` — a percentage. -/
def get_status (s : Settings) (st : ManagerState) : StatusReport :=
  if st.inited = false then .not_inited
  else
    .ready (model_types_order.map fun model_type =>
      let config := models s model_type
      let stats := st.usage_stats model_type
      { model_name := config.name,
        deployment := config.deployment,
        capabilities := config.capabilities,
        usage :=
          { total_requests := stats.total_requests,
            total_cost := py_round stats.total_cost 4,
            average_latency_ms := py_round stats.average_latency_ms 2,
            error_rate :=
              py_round ((stats.error_count : ℚ) / ((max stats.total_requests 1 : Nat) : ℚ) * 100) 2 } })

/-!  The Session Store (src/core/database.py).  The Redis keyspace relevant to
the `SessionManager` holds one serialized `SessionData` per `session:<id>` key;
JSON (de)serialization round-trips these records, so the cache is modelled as
an association list from key to record.  -/

/-- The session record dict built by `create_session` (lines 339-347) and
consumed by `cleanup_expired_sessions`.  Times are event-loop seconds. -/
structure SessionData where
  session_id : String
  created_at : ℚ
  last_activity : ℚ
  user_data : List (String × String)
  conversation_state : String
  messages : List Message
  context : List (String × String)
deriving DecidableEq

/-- The cache keyspace: association list from Redis key to stored record. -/
abbrev CacheStore := List (String × SessionData)

/-- `CacheManager.get_json` / Redis `GET` on the modelled keyspace. -/
def cache_get_json (store : CacheStore) (key : String) : Option SessionData :=
  (store.find? (fun kv => kv.1 = key)).map Prod.snd

/-- `CacheManager.delete` / Redis `DEL`: drop the key. -/
def cache_delete (store : CacheStore) (key : String) : CacheStore :=
  store.filter (fun kv => ¬ kv.1 = key)

/-- A value returned by the Redis client: a `bytes` object or an
already-decoded `str`, depending on the client's `decode_responses` flag. -/
inductive RedisReply
  | bytes_val (s : String)
  | str_val (s : String)
deriving DecidableEq

/-- Python `.decode()` on a Redis reply: `bytes.decode()` yields the string;
`str` has no `decode` attribute, so the call raises `AttributeError`. -/
def RedisReply.decode : RedisReply → Except PyErr String
  | .bytes_val s => .ok s
  | .str_val _ => .error (.attribute_error "str object has no attribute decode")

/-- `init_db` (database.py lines 67-75) creates the Redis client with
`decode_responses=True`, so every reply — including each key returned by
`keys` — is a `str`, not `bytes`. -/
def redis_decode_responses : Bool := true

/-- Redis `KEYS session:*` as issued by `cleanup_expired_sessions` (line 398):
all stored keys with the session prefix, wrapped according to the client's
`decode_responses` flag. -/
def redis_session_keys (store : CacheStore) : List RedisReply :=
  ((store.map Prod.fst).filter (fun k => chars_start_with "session:".toList k.toList)).map
    (fun k => if redis_decode_responses = true then .str_val k else .bytes_val k)

/-- `SessionManager.session_ttl` (line 334): the configured timeout in seconds. -/
def session_ttl (s : Settings) : Nat :=
  s.CONVERSATION_TIMEOUT_MINUTES * 60

/-- The `for key in keys` loop body of `cleanup_expired_sessions`
(lines 402-408), threading the evolving store and the removal count.  The
result marks whether an exception escaped the loop (ending the `try` block);
mutations made before the exception are kept. -/
def cleanup_loop (ttl current_time : ℚ) :
    List RedisReply → CacheStore → Nat → CacheStore × Nat × Bool
  | [], store, expired_count => (store, expired_count, false)
  | key :: rest, store, expired_count =>
    match key.decode with
    | .error _ => (store, expired_count, true)
    | .ok k =>
      match cache_get_json store k with
      | none => cleanup_loop ttl current_time rest store expired_count
      | some session_data =>
        if current_time - session_data.last_activity > ttl then
          cleanup_loop ttl current_time rest (cache_delete store k) (expired_count + 1)
        else
          cleanup_loop ttl current_time rest store expired_count

/-- `SessionManager.cleanup_expired_sessions` (lines 393-416): enumerate the
session keys, delete those inactive longer than the timeout, return the count
removed; the blanket `except` returns `0` when anything in the body raises. -/
def cleanup_expired_sessions (s : Settings) (store : CacheStore) (current_time : ℚ) :
    CacheStore × Nat :=
  match cleanup_loop ((session_ttl s : ℚ)) current_time (redis_session_keys store) store 0 with
  | (store1, expired_count, false) => (store1, expired_count)
  | (store1, _, true) => (store1, 0)

/-- A concrete configuration used by witnesses and counterexamples
(30-minute session timeout, as the default `CONVERSATION_TIMEOUT_MINUTES`). -/
def sample_settings : Settings :=
  { AZURE_CHAT_DEPLOYMENT := "chat-dep", AZURE_VISION_DEPLOYMENT := "vision-dep",
    AZURE_AUDIO_DEPLOYMENT := "audio-dep", AZURE_REASONING_DEPLOYMENT := "reasoning-dep",
    AZURE_FAST_REASONING_DEPLOYMENT := "fast-dep", AZURE_EMBEDDINGS_DEPLOYMENT := "embed-dep",
    CONVERSATION_TIMEOUT_MINUTES := 30 }

/-- A freshly started manager: `initialize` succeeded, no usage recorded yet. -/
def inited_state : ManagerState :=
  { inited := true, usage_stats := init_usage_stats }

/-- The stats map after one `_update_usage_stats` call, field by field:
counters and the running average are updated at the given key; `total_cost`
is not (the cost-config lookup raised first). -/
theorem update_usage_stats_fst_apply (s : Settings) (stats : UsageStats) (mt : ModelType)
    (i o : Nat) (t : ℚ) :
    (update_usage_stats s stats mt i o t).1 mt =
      { total_requests := (stats mt).total_requests + 1,
        total_tokens_input := (stats mt).total_tokens_input + i,
        total_tokens_output := (stats mt).total_tokens_output + o,
        total_cost := (stats mt).total_cost,
        average_latency_ms :=
          ((stats mt).average_latency_ms * ((stats mt).total_requests : ℚ) + t * 1000)
            / (((stats mt).total_requests : ℚ) + 1),
        error_count := (stats mt).error_count } := by
  unfold update_usage_stats
  rw [find_cost_config_none]
  simp only [UsageStats.set, if_pos rfl]
  push_cast
  ring_nf

/-- `_update_usage_stats` leaves every other profile's entry untouched. -/
theorem update_usage_stats_fst_other (s : Settings) (stats : UsageStats) (mt : ModelType)
    (i o : Nat) (t : ℚ) (x : ModelType) (hx : x ≠ mt) :
    (update_usage_stats s stats mt i o t).1 x = stats x := by
  unfold update_usage_stats
  rw [find_cost_config_none]
  simp [UsageStats.set, hx]

/-- Every `_update_usage_stats` call ends in the `StopIteration` raise. -/
theorem update_usage_stats_snd (s : Settings) (stats : UsageStats) (mt : ModelType)
    (i o : Nat) (t : ℚ) :
    (update_usage_stats s stats mt i o t).2 = Except.error PyErr.stop_iteration := by
  unfold update_usage_stats
  rw [find_cost_config_none]

/-- C1: the Usage Ledger token/cost update is NOT atomic — this is a code bug.
For every profile key actually used (`model_type.value`), the cost-config
lookup in `_update_usage_stats` matches nothing and raises `StopIteration`
AFTER the token counters were increased, so every recording leaves
`total_tokens_input`/`total_tokens_output` increased with `total_cost`
unchanged: a reader observes token counts updated without the corresponding
cost update, on every call. -/
theorem update_usage_stats_not_atomic :
    ∀ (s : Settings) (stats : UsageStats) (mt : ModelType) (i o : Nat) (t : ℚ),
      ((update_usage_stats s stats mt i o t).1 mt).total_tokens_input
          = (stats mt).total_tokens_input + i
      ∧ ((update_usage_stats s stats mt i o t).1 mt).total_tokens_output
          = (stats mt).total_tokens_output + o
      ∧ ((update_usage_stats s stats mt i o t).1 mt).total_cost = (stats mt).total_cost
      ∧ (update_usage_stats s stats mt i o t).2 = Except.error PyErr.stop_iteration := by
  intro s stats mt i o t
  rw [update_usage_stats_fst_apply, update_usage_stats_snd]
  exact ⟨rfl, rfl, rfl, rfl⟩

/-- The Usage Ledger state after a sequence of successful-call recordings,
one `_update_usage_stats` per call `(input_tokens, output_tokens,
processing_time)`.  Each recording runs without an intervening `await`, so
under the cooperative (asyncio) scheduler it is one atomic transition; a
concurrent interleaving of N recordings is therefore some ordering of the
list.  Mutations made before the internal raise are kept. -/
def record_successes (s : Settings) (stats : UsageStats) (mt : ModelType)
    (calls : List (Nat × Nat × ℚ)) : UsageStats :=
  calls.foldl (fun acc c => (update_usage_stats s acc mt c.1 c.2.1 c.2.2).1) stats

/-- Unfolding a single recording off the front of the sequence. -/
theorem record_successes_cons (s : Settings) (stats : UsageStats) (mt : ModelType)
    (c : Nat × Nat × ℚ) (rest : List (Nat × Nat × ℚ)) :
    record_successes s stats mt (c :: rest)
      = record_successes s ((update_usage_stats s stats mt c.1 c.2.1 c.2.2).1) mt rest := rfl

/-- Counter bookkeeping of a recording sequence: requests and token totals
accumulate exactly. -/
theorem record_successes_counts (s : Settings) (mt : ModelType) :
    ∀ (calls : List (Nat × Nat × ℚ)) (stats : UsageStats),
      ((record_successes s stats mt calls) mt).total_requests
          = (stats mt).total_requests + calls.length
      ∧ ((record_successes s stats mt calls) mt).total_tokens_input
          = (stats mt).total_tokens_input + (calls.map (fun c => c.1)).sum
      ∧ ((record_successes s stats mt calls) mt).total_tokens_output
          = (stats mt).total_tokens_output + (calls.map (fun c => c.2.1)).sum := by
  intro calls
  induction calls with
  | nil => intro stats; simp [record_successes]
  | cons c rest ih =>
    intro stats
    rw [record_successes_cons]
    obtain ⟨h1, h2, h3⟩ := ih ((update_usage_stats s stats mt c.1 c.2.1 c.2.2).1)
    rw [update_usage_stats_fst_apply] at h1 h2 h3
    refine ⟨?_, ?_, ?_⟩
    · rw [h1]; simp; omega
    · rw [h2]; simp; omega
    · rw [h3]; simp; omega

/-- The running-average recurrence of a recording sequence, in
product form (no division, so the empty sequence is included). -/
theorem record_successes_latency (s : Settings) (mt : ModelType) :
    ∀ (calls : List (Nat × Nat × ℚ)) (stats : UsageStats),
      ((record_successes s stats mt calls) mt).average_latency_ms
          * (((stats mt).total_requests : ℚ) + (calls.length : ℚ))
        = (stats mt).average_latency_ms * ((stats mt).total_requests : ℚ)
          + (calls.map (fun c => c.2.2 * 1000)).sum := by
  intro calls
  induction calls with
  | nil => intro stats; simp [record_successes]
  | cons c rest ih =>
    intro stats
    rw [record_successes_cons]
    have h := ih ((update_usage_stats s stats mt c.1 c.2.1 c.2.2).1)
    rw [update_usage_stats_fst_apply] at h
    dsimp only at h
    push_cast at h
    have hne : (((stats mt).total_requests : ℚ) + 1) ≠ 0 := by positivity
    rw [div_mul_cancel₀ _ hne] at h
    simp only [List.length_cons, List.map_cons, List.sum_cons]
    push_cast
    linear_combination h

/-- C9: for every profile and every ordering (interleaving) of N recorded
successful calls with token counts i₁..i_N / o₁..o_N, the resulting ledger
entry has `total_requests = N`, `total_tokens_input = Σi` and
`total_tokens_output = Σo` — no lost updates.  Each `_update_usage_stats`
body has no suspension point, so under the cooperative scheduler each
recording is one atomic transition and an interleaving of the N concurrent
calls is exactly a list ordering, all of which are quantified here. -/
theorem usage_counters_sum_under_any_interleaving :
    ∀ (s : Settings) (mt : ModelType) (calls : List (Nat × Nat × ℚ)),
      ((record_successes s init_usage_stats mt calls) mt).total_requests = calls.length
      ∧ ((record_successes s init_usage_stats mt calls) mt).total_tokens_input
          = (calls.map (fun c => c.1)).sum
      ∧ ((record_successes s init_usage_stats mt calls) mt).total_tokens_output
          = (calls.map (fun c => c.2.1)).sum := by
  intro s mt calls
  have h := record_successes_counts s mt calls init_usage_stats
  simpa [init_usage_stats, ModelUsage.init] using h

/-- C8: after recording N successful calls with processing times t₁..t_N
(latencies 1000·tᵢ milliseconds), the profile's `average_latency_ms` equals
the arithmetic mean of all recorded latencies to date; the recurrence
`avg ← (avg·(req−1) + t·1000)/req` preserves this on every recording. -/
theorem average_latency_is_arithmetic_mean :
    ∀ (s : Settings) (mt : ModelType) (calls : List (Nat × Nat × ℚ)),
      calls ≠ [] →
      ((record_successes s init_usage_stats mt calls) mt).average_latency_ms
        = (calls.map (fun c => c.2.2 * 1000)).sum / (calls.length : ℚ) := by
  intro s mt calls hne
  have h := record_successes_latency s mt calls init_usage_stats
  simp [init_usage_stats, ModelUsage.init] at h
  have hlen : ((calls.length : ℚ)) ≠ 0 := by
    have h0 : calls.length ≠ 0 := fun h0 => hne (List.length_eq_zero.mp h0)
    exact_mod_cast h0
  rw [eq_div_iff hlen]
  exact h

/-- Witness for C8 at a concrete input: two recordings with processing times
2 s and 4 s give an average latency of (2000 + 4000)/2 ms. -/
theorem average_latency_is_arithmetic_mean_witness :
    ((record_successes sample_settings init_usage_stats ModelType.chat
        [(0, 0, 2), (0, 0, 4)]) ModelType.chat).average_latency_ms
      = (([(0, 0, 2), (0, 0, 4)] : List (Nat × Nat × ℚ)).map (fun c => c.2.2 * 1000)).sum
          / (([(0, 0, 2), (0, 0, 4)] : List (Nat × Nat × ℚ)).length : ℚ) :=
  average_latency_is_arithmetic_mean sample_settings ModelType.chat
    [(0, 0, 2), (0, 0, 4)] (by decide)

/-- Acceptance/rejection behaviour of `validate_input_length`, as a helper:
success exactly when the counted sum is at most the context window (boundary
included), and on rejection the raised error carries the profile's model
name, the counted sum, and the limit. -/
theorem validate_input_length_spec (s : Settings) (count_tokens : String → Nat)
    (messages : List Message) (mt : ModelType) :
    (validate_input_length s count_tokens messages mt = .ok true
      ↔ (messages.map (message_tokens count_tokens)).sum ≤ (models s mt).context_window)
    ∧ ((models s mt).context_window < (messages.map (message_tokens count_tokens)).sum
        → validate_input_length s count_tokens messages mt
            = .error (.token_limit_exceeded (models s mt).name
                ((messages.map (message_tokens count_tokens)).sum)
                (models s mt).context_window)) := by
  unfold validate_input_length
  dsimp only
  split_ifs with h
  · exact ⟨⟨(fun hc => by cases hc), (fun hle => absurd h (by omega))⟩, (fun _ => rfl)⟩
  · exact ⟨⟨(fun _ => by omega), (fun _ => rfl)⟩, (fun hlt => absurd hlt (by omega))⟩

/-- C3: `validate_budget` succeeds iff the summed token estimate over all
textual message content is at most the profile's context window; a strictly
larger sum is rejected with `TokenLimitExceededError` carrying the profile's
model name, the counted sum and the limit, and the boundary case
(sum = limit) is accepted. -/
theorem validate_input_length_iff :
    ∀ (s : Settings) (count_tokens : String → Nat) (messages : List Message) (mt : ModelType),
      (validate_input_length s count_tokens messages mt = .ok true
        ↔ (messages.map (message_tokens count_tokens)).sum ≤ (models s mt).context_window)
      ∧ ((models s mt).context_window < (messages.map (message_tokens count_tokens)).sum
          → validate_input_length s count_tokens messages mt
              = .error (.token_limit_exceeded (models s mt).name
                  ((messages.map (message_tokens count_tokens)).sum)
                  (models s mt).context_window)) := by
  intro s count_tokens messages mt
  exact validate_input_length_spec s count_tokens messages mt

/-- Witness for C3 at concrete inputs: a 2-token message is accepted against
the 8191-token Embeddings window, and a 10000-token estimate is rejected with
the populated error. -/
theorem validate_input_length_iff_witness :
    validate_input_length sample_settings (fun t => t.length)
        [{ role := "user", content := .text "hi" }] ModelType.embeddings = .ok true
    ∧ validate_input_length sample_settings (fun _ => 10000)
        [{ role := "user", content := .text "hi" }] ModelType.embeddings
      = .error (.token_limit_exceeded "text-embedding-3-small" 10000 8191) :=
  ⟨(validate_input_length_iff sample_settings (fun t => t.length)
      [{ role := "user", content := .text "hi" }] ModelType.embeddings).1.mpr (by decide),
   (validate_input_length_iff sample_settings (fun _ => 10000)
      [{ role := "user", content := .text "hi" }] ModelType.embeddings).2 (by decide)⟩

/-- C7: hint routing sends `task_type="embedding"` to the Embeddings profile
whatever the other hints are, and with `speed="fast"` the reasoning branch
(reasoning task or high complexity) yields the fast-reasoning profile — the
(slow) reasoning profile is never selected when speed is "fast". -/
theorem select_optimal_model_routing :
    (∀ complexity speed_requirement,
        select_optimal_model "embedding" complexity speed_requirement = ModelType.embeddings)
    ∧ (∀ task_type complexity,
        select_optimal_model task_type complexity "fast" ≠ ModelType.reasoning)
    ∧ (∀ task_type complexity,
        task_type ≠ "embedding" →
        task_type ≠ "vision" → str_contains (py_lower task_type) "image" = false →
        task_type ≠ "audio" → str_contains (py_lower task_type) "speech" = false →
        (task_type = "reasoning" ∨ complexity = "high") →
        select_optimal_model task_type complexity "fast" = ModelType.fast_reasoning) := by
  refine ⟨?_, ?_, ?_⟩
  · intro c sp
    simp [select_optimal_model]
  · intro task c
    unfold select_optimal_model
    split_ifs <;> simp_all
  · intro task c h1 h2 h3 h4 h5 h6
    have hv : ¬(task = "vision" ∨ str_contains (py_lower task) "image" = true) := by
      rintro (h | h)
      · exact h2 h
      · simp [h] at h3
    have ha : ¬(task = "audio" ∨ str_contains (py_lower task) "speech" = true) := by
      rintro (h | h)
      · exact h4 h
      · simp [h] at h5
    unfold select_optimal_model
    rw [if_neg h1, if_neg hv, if_neg ha, if_pos h6, if_pos rfl]

/-- Witness for C7 at concrete hints. -/
theorem select_optimal_model_routing_witness :
    select_optimal_model "embedding" "high" "fast" = ModelType.embeddings
    ∧ select_optimal_model "reasoning" "medium" "fast" = ModelType.fast_reasoning
    ∧ select_optimal_model "chat" "high" "fast" = ModelType.fast_reasoning :=
  ⟨select_optimal_model_routing.1 "high" "fast",
   select_optimal_model_routing.2.2 "reasoning" "medium" (by decide) (by decide) (by decide)
     (by decide) (by decide) (Or.inl rfl),
   select_optimal_model_routing.2.2 "chat" "high" (by decide) (by decide) (by decide)
     (by decide) (by decide) (Or.inr rfl)⟩

/-- C10: hint-based selection is total — it always lands on one of the six
configured profiles (its body is built from total string operations, with no
lookup that can fail, unlike an explicit registry access), and when no branch
hint matches it falls through to the default Chat profile. -/
theorem select_optimal_model_total :
    (∀ task_type complexity speed_requirement,
        select_optimal_model task_type complexity speed_requirement ∈
          [ModelType.chat, ModelType.vision, ModelType.audio, ModelType.reasoning,
           ModelType.fast_reasoning, ModelType.embeddings])
    ∧ (∀ task_type complexity speed_requirement,
        task_type ≠ "embedding" →
        task_type ≠ "vision" → str_contains (py_lower task_type) "image" = false →
        task_type ≠ "audio" → str_contains (py_lower task_type) "speech" = false →
        task_type ≠ "reasoning" → complexity ≠ "high" →
        ¬(complexity = "low" ∧ speed_requirement = "fast") →
        select_optimal_model task_type complexity speed_requirement = ModelType.chat) := by
  refine ⟨?_, ?_⟩
  · intro t c sp
    cases h : select_optimal_model t c sp <;> simp
  · intro t c sp h1 h2 h3 h4 h5 h6 h7 h8
    have hv : ¬(t = "vision" ∨ str_contains (py_lower t) "image" = true) := by
      rintro (h | h)
      · exact h2 h
      · simp [h] at h3
    have ha : ¬(t = "audio" ∨ str_contains (py_lower t) "speech" = true) := by
      rintro (h | h)
      · exact h4 h
      · simp [h] at h5
    have hr : ¬(t = "reasoning" ∨ c = "high") := by
      rintro (h | h)
      · exact h6 h
      · exact h7 h
    unfold select_optimal_model
    rw [if_neg h1, if_neg hv, if_neg ha, if_neg hr, if_neg h8]

/-- Witness for C10 at concrete hints that hit no branch: the default Chat
profile comes back. -/
theorem select_optimal_model_total_witness :
    select_optimal_model "qa" "medium" "normal" = ModelType.chat :=
  select_optimal_model_total.2 "qa" "medium" "normal" (by decide) (by decide) (by decide)
    (by decide) (by decide) (by decide) (by decide) (by decide)

/-- On the chat-completion path, an over-budget message set aborts before
dispatch: the provider is not invoked, the manager state (and so the Usage
Ledger) is unchanged, and `TokenLimitExceededError` surfaces. -/
theorem chat_completion_over_budget (s : Settings) (count_tokens : String → Nat)
    (st : ManagerState) (messages : List Message) (model_type? : Option ModelType)
    (stream : Bool) (provider : Except PyErr ChatResponse) (processing_time : ℚ)
    (hinit : st.inited = true)
    (hover : (models s (resolve_model_type model_type?)).context_window
               < (messages.map (message_tokens count_tokens)).sum) :
    chat_completion s count_tokens st messages model_type? stream provider processing_time
      = { state := st,
          result := .error (.token_limit_exceeded
            (models s (resolve_model_type model_type?)).name
            ((messages.map (message_tokens count_tokens)).sum)
            (models s (resolve_model_type model_type?)).context_window),
          provider_calls := 0 } := by
  have hval := (validate_input_length_spec s count_tokens messages
    (resolve_model_type model_type?)).2 hover
  unfold chat_completion
  rw [hinit]
  dsimp only
  rw [hval]
  rfl

/-- The token estimate of the message list `analyze_image` builds is the
estimate of its prompt text (the image part is not a `"text"` part). -/
theorem analyze_image_messages_tokens (count_tokens : String → Nat) (prompt : Option String) :
    ((analyze_image_messages prompt).map (message_tokens count_tokens)).sum
      = count_tokens (analyze_prompt prompt) := by
  simp [analyze_image_messages, message_tokens, count_part_tokens]

/-- `generate_embeddings` always dispatches to the provider once it is past
the initialization guard: there is no budget validation on this path. -/
theorem generate_embeddings_always_dispatches (s : Settings) (count_tokens : String → Nat)
    (st : ManagerState) (texts : List String) (provider : Except PyErr (List (List ℚ)))
    (processing_time : ℚ) (hinit : st.inited = true) :
    (generate_embeddings s count_tokens st texts provider processing_time).provider_calls
      = 1 := by
  unfold generate_embeddings
  rw [hinit]
  dsimp only
  cases provider with
  | error e => rfl
  | ok data =>
    have hsnd := update_usage_stats_snd s st.usage_stats .embeddings
      ((texts.map count_tokens).sum) 0 processing_time
    have hpair : update_usage_stats s st.usage_stats .embeddings
        ((texts.map count_tokens).sum) 0 processing_time
      = ((update_usage_stats s st.usage_stats .embeddings
            ((texts.map count_tokens).sum) 0 processing_time).1,
         Except.error PyErr.stop_iteration) := by
      rw [← hsnd]
    rw [hpair]
    rfl

/-- C2 counterexample: the claim fails on the embeddings path.  With an
estimator charging 10000 tokens — over the Embeddings profile's 8191-token
window — `generate_embeddings` still invokes the provider and still charges
the token count to the Usage Ledger. -/
theorem generate_embeddings_skips_budget_validation :
    (models sample_settings ModelType.embeddings).context_window
        < ((["some text"].map (fun _ => 10000)).sum)
    ∧ (generate_embeddings sample_settings (fun _ => 10000) inited_state ["some text"]
        (.ok [[0]]) 1).provider_calls = 1
    ∧ ((generate_embeddings sample_settings (fun _ => 10000) inited_state ["some text"]
        (.ok [[0]]) 1).state.usage_stats ModelType.embeddings).total_tokens_input = 10000 := by
  refine ⟨by decide, ?_, ?_⟩ <;> decide

/-- C2 (amended): budget validation runs before any network dispatch on the
chat-completion path and its streaming and image-analysis variants — an
over-budget request never reaches the provider and leaves the Usage Ledger
untouched — but the embeddings path performs no budget validation at all and
always dispatches once initialized. -/
theorem budget_validation_before_dispatch :
    (∀ (s : Settings) (count_tokens : String → Nat) (st : ManagerState)
        (messages : List Message) (model_type? : Option ModelType) (stream : Bool)
        (provider : Except PyErr ChatResponse) (processing_time : ℚ),
        st.inited = true →
        (models s (resolve_model_type model_type?)).context_window
            < (messages.map (message_tokens count_tokens)).sum →
        chat_completion s count_tokens st messages model_type? stream provider processing_time
          = { state := st,
              result := .error (.token_limit_exceeded
                (models s (resolve_model_type model_type?)).name
                ((messages.map (message_tokens count_tokens)).sum)
                (models s (resolve_model_type model_type?)).context_window),
              provider_calls := 0 })
    ∧ (∀ (s : Settings) (count_tokens : String → Nat) (st : ManagerState)
        (prompt : Option String) (provider : Except PyErr ChatResponse) (processing_time : ℚ),
        st.inited = true →
        (models s ModelType.vision).context_window < count_tokens (analyze_prompt prompt) →
        analyze_image s count_tokens st prompt provider processing_time
          = { state := st,
              result := .error (.token_limit_exceeded (models s ModelType.vision).name
                (count_tokens (analyze_prompt prompt))
                (models s ModelType.vision).context_window),
              provider_calls := 0 })
    ∧ (∀ (s : Settings) (count_tokens : String → Nat) (st : ManagerState)
        (texts : List String) (provider : Except PyErr (List (List ℚ)))
        (processing_time : ℚ),
        st.inited = true →
        (generate_embeddings s count_tokens st texts provider processing_time).provider_calls
          = 1) := by
  refine ⟨?_, ?_, ?_⟩
  · intro s count_tokens st messages model_type? stream provider processing_time hinit hover
    exact chat_completion_over_budget s count_tokens st messages model_type? stream provider
      processing_time hinit hover
  · intro s count_tokens st prompt provider processing_time hinit hover
    have hover' : (models s (resolve_model_type (some ModelType.vision))).context_window
        < ((analyze_image_messages prompt).map (message_tokens count_tokens)).sum := by
      rw [analyze_image_messages_tokens]
      exact hover
    have h := chat_completion_over_budget s count_tokens st (analyze_image_messages prompt)
      (some ModelType.vision) false provider processing_time hinit hover'
    unfold analyze_image
    rw [h]
    rfl
  · intro s count_tokens st texts provider processing_time hinit
    exact generate_embeddings_always_dispatches s count_tokens st texts provider
      processing_time hinit

/-- Witness for C2's amended statement at concrete inputs: an over-budget
chat request returns `TokenLimitExceededError` with zero provider calls, and
an embeddings request dispatches exactly once. -/
theorem budget_validation_before_dispatch_witness :
    (chat_completion sample_settings (fun _ => 200000) inited_state
        [{ role := "user", content := .text "hello" }] (some ModelType.chat) false
        (.ok { content := "", prompt_tokens := 0, completion_tokens := 0, total_tokens := 0 }) 1).provider_calls = 0
    ∧ (generate_embeddings sample_settings (fun _ => 1) inited_state ["x"]
        (.ok [[0]]) 1).provider_calls = 1 := by
  constructor
  · rw [budget_validation_before_dispatch.1 sample_settings (fun _ => 200000) inited_state
      [{ role := "user", content := .text "hello" }] (some ModelType.chat) false
      (.ok { content := "", prompt_tokens := 0, completion_tokens := 0, total_tokens := 0 }) 1
      rfl (by decide)]
  · exact budget_validation_before_dispatch.2.2 sample_settings (fun _ => 1) inited_state
      ["x"] (.ok [[0]]) 1 rfl

/-- A chat call whose dispatch fails (after the client's internal retries)
lands in the `except`-handler with the pre-call ledger. -/
theorem chat_completion_provider_failure (s : Settings) (count_tokens : String → Nat)
    (st : ManagerState) (messages : List Message) (model_type? : Option ModelType)
    (stream : Bool) (e : PyErr) (processing_time : ℚ)
    (hinit : st.inited = true)
    (hbudget : (messages.map (message_tokens count_tokens)).sum
                 ≤ (models s (resolve_model_type model_type?)).context_window) :
    chat_completion s count_tokens st messages model_type? stream (.error e) processing_time
      = chat_except_handler s st (resolve_model_type model_type?) messages st.usage_stats e 1 := by
  have hval := (validate_input_length_spec s count_tokens messages
    (resolve_model_type model_type?)).1.mpr hbudget
  unfold chat_completion
  rw [hinit]
  dsimp only
  rw [hval]
  rfl

/-- What the chat `except`-handler does, field by field: `error_count` is
bumped by one at the handled profile, every other ledger field there is left
alone, and the surfaced error is classified by the rate-limit pattern. -/
theorem chat_except_handler_spec (s : Settings) (st : ManagerState) (mt : ModelType)
    (messages : List Message) (stats : UsageStats) (e : PyErr) (calls : Nat) :
    ((chat_except_handler s st mt messages stats e calls).state.usage_stats mt).error_count
        = (stats mt).error_count + 1
    ∧ ((chat_except_handler s st mt messages stats e calls).state.usage_stats mt).total_tokens_input
        = (stats mt).total_tokens_input
    ∧ ((chat_except_handler s st mt messages stats e calls).state.usage_stats mt).total_tokens_output
        = (stats mt).total_tokens_output
    ∧ ((chat_except_handler s st mt messages stats e calls).state.usage_stats mt).total_cost
        = (stats mt).total_cost
    ∧ ((chat_except_handler s st mt messages stats e calls).state.usage_stats mt).total_requests
        = (stats mt).total_requests
    ∧ (chat_except_handler s st mt messages stats e calls).result
        = (if str_contains (py_lower e.py_str) "rate limit" = true
            then .error (.rate_limit_exceeded "Azure OpenAI")
            else .error (.model_inference_error (models s mt).name e.py_str
                   (.messages messages))) := by
  unfold chat_except_handler
  split_ifs with h <;> simp [UsageStats.set]

/-- `generate_embeddings` on a failed dispatch: bump `error_count`, raise
`ModelInferenceError` unconditionally (no rate-limit classification). -/
theorem generate_embeddings_provider_failure (s : Settings) (count_tokens : String → Nat)
    (st : ManagerState) (texts : List String) (e : PyErr) (processing_time : ℚ)
    (hinit : st.inited = true) :
    (generate_embeddings s count_tokens st texts (.error e) processing_time).state.usage_stats
        = st.usage_stats.set ModelType.embeddings
            ({ (st.usage_stats ModelType.embeddings) with
               error_count := (st.usage_stats ModelType.embeddings).error_count + 1 })
    ∧ (generate_embeddings s count_tokens st texts (.error e) processing_time).result
        = .error (.model_inference_error (models s ModelType.embeddings).name
            e.py_str (.texts texts))
    ∧ (generate_embeddings s count_tokens st texts (.error e) processing_time).provider_calls
        = 1 := by
  unfold generate_embeddings
  rw [hinit]
  exact ⟨rfl, rfl, rfl⟩

/-- C6 counterexample: the claim fails on the embeddings path.  A provider
failure whose message matches the rate-limit pattern still surfaces as
`ModelInferenceError`, not `RateLimitExceededError` — `generate_embeddings`
has no rate-limit classification. -/
theorem generate_embeddings_rate_limit_not_classified :
    str_contains (py_lower (PyErr.provider_error "Rate limit exceeded").py_str)
        "rate limit" = true
    ∧ (generate_embeddings sample_settings (fun _ => 1) inited_state ["x"]
        (.error (.provider_error "Rate limit exceeded")) 1).result
      = .error (.model_inference_error "text-embedding-3-small" "Rate limit exceeded"
          (.texts ["x"])) :=
  ⟨by decide, by rfl⟩

/-- C6 (amended): a call whose provider dispatch fails after the configured
retry bound increments the selected profile's `error_count` by exactly 1 and
mutates no token, cost or request counter; on the chat-completion path the
surfaced error is `RateLimitExceededError` when the message matches the
rate-limit pattern and `ModelInferenceError` otherwise, while the embeddings
path always surfaces `ModelInferenceError`. -/
theorem provider_failure_accounting :
    (∀ (s : Settings) (count_tokens : String → Nat) (st : ManagerState)
        (messages : List Message) (model_type? : Option ModelType) (stream : Bool)
        (e : PyErr) (processing_time : ℚ),
        st.inited = true →
        (messages.map (message_tokens count_tokens)).sum
            ≤ (models s (resolve_model_type model_type?)).context_window →
        (((chat_completion s count_tokens st messages model_type? stream (.error e)
              processing_time).state.usage_stats (resolve_model_type model_type?)).error_count
            = (st.usage_stats (resolve_model_type model_type?)).error_count + 1
        ∧ ((chat_completion s count_tokens st messages model_type? stream (.error e)
              processing_time).state.usage_stats
                (resolve_model_type model_type?)).total_tokens_input
            = (st.usage_stats (resolve_model_type model_type?)).total_tokens_input
        ∧ ((chat_completion s count_tokens st messages model_type? stream (.error e)
              processing_time).state.usage_stats
                (resolve_model_type model_type?)).total_tokens_output
            = (st.usage_stats (resolve_model_type model_type?)).total_tokens_output
        ∧ ((chat_completion s count_tokens st messages model_type? stream (.error e)
              processing_time).state.usage_stats
                (resolve_model_type model_type?)).total_cost
            = (st.usage_stats (resolve_model_type model_type?)).total_cost
        ∧ ((chat_completion s count_tokens st messages model_type? stream (.error e)
              processing_time).state.usage_stats
                (resolve_model_type model_type?)).total_requests
            = (st.usage_stats (resolve_model_type model_type?)).total_requests
        ∧ (chat_completion s count_tokens st messages model_type? stream (.error e)
              processing_time).result
            = (if str_contains (py_lower e.py_str) "rate limit" = true
                then .error (.rate_limit_exceeded "Azure OpenAI")
                else .error (.model_inference_error
                      (models s (resolve_model_type model_type?)).name e.py_str
                      (.messages messages)))))
    ∧ (∀ (s : Settings) (count_tokens : String → Nat) (st : ManagerState)
        (texts : List String) (e : PyErr) (processing_time : ℚ),
        st.inited = true →
        (((generate_embeddings s count_tokens st texts (.error e)
              processing_time).state.usage_stats ModelType.embeddings).error_count
            = (st.usage_stats ModelType.embeddings).error_count + 1
        ∧ ((generate_embeddings s count_tokens st texts (.error e)
              processing_time).state.usage_stats ModelType.embeddings).total_tokens_input
            = (st.usage_stats ModelType.embeddings).total_tokens_input
        ∧ ((generate_embeddings s count_tokens st texts (.error e)
              processing_time).state.usage_stats ModelType.embeddings).total_tokens_output
            = (st.usage_stats ModelType.embeddings).total_tokens_output
        ∧ ((generate_embeddings s count_tokens st texts (.error e)
              processing_time).state.usage_stats ModelType.embeddings).total_cost
            = (st.usage_stats ModelType.embeddings).total_cost
        ∧ ((generate_embeddings s count_tokens st texts (.error e)
              processing_time).state.usage_stats ModelType.embeddings).total_requests
            = (st.usage_stats ModelType.embeddings).total_requests
        ∧ (generate_embeddings s count_tokens st texts (.error e) processing_time).result
            = .error (.model_inference_error (models s ModelType.embeddings).name e.py_str
                (.texts texts)))) := by
  constructor
  · intro s count_tokens st messages model_type? stream e processing_time hinit hbudget
    rw [chat_completion_provider_failure s count_tokens st messages model_type? stream e
      processing_time hinit hbudget]
    exact chat_except_handler_spec s st (resolve_model_type model_type?) messages
      st.usage_stats e 1
  · intro s count_tokens st texts e processing_time hinit
    have h := generate_embeddings_provider_failure s count_tokens st texts e
      processing_time hinit
    refine ⟨?_, ?_, ?_, ?_, ?_, h.2.1⟩ <;> rw [h.1] <;> simp [UsageStats.set]

/-- Witness for C6's amended statement at concrete inputs: a rate-limit
message on the chat path surfaces `RateLimitExceededError` with
`error_count = 1`; the same message on the embeddings path surfaces
`ModelInferenceError`. -/
theorem provider_failure_accounting_witness :
    ((chat_completion sample_settings (fun _ => 0) inited_state [] none false
        (.error (.provider_error "Rate limit exceeded")) 1).state.usage_stats
          ModelType.chat).error_count = 1
    ∧ (chat_completion sample_settings (fun _ => 0) inited_state [] none false
        (.error (.provider_error "Rate limit exceeded")) 1).result
      = .error (.rate_limit_exceeded "Azure OpenAI")
    ∧ (generate_embeddings sample_settings (fun _ => 0) inited_state ["x"]
        (.error (.provider_error "Rate limit exceeded")) 1).result
      = .error (.model_inference_error "text-embedding-3-small" "Rate limit exceeded"
          (.texts ["x"])) := by
  have hchat := provider_failure_accounting.1 sample_settings (fun _ => 0) inited_state []
    none false (.provider_error "Rate limit exceeded") 1 rfl (by decide)
  have hemb := provider_failure_accounting.2 sample_settings (fun _ => 0) inited_state ["x"]
    (.provider_error "Rate limit exceeded") 1 rfl
  have hres : resolve_model_type none = ModelType.chat := rfl
  rw [hres] at hchat
  refine ⟨?_, ?_, ?_⟩
  · rw [hchat.1]
    rfl
  · rw [hchat.2.2.2.2.2, if_pos (by decide)]
  · rw [hemb.2.2.2.2.2]
    rfl

/-- The ledger state used in the C5 counterexample: on the Chat profile, two
requests recorded and one error counted. -/
def c5_state : ManagerState :=
  { inited := true,
    usage_stats := init_usage_stats.set ModelType.chat
      ({ total_requests := 2, total_tokens_input := 0, total_tokens_output := 0,
         total_cost := 0, average_latency_ms := 0, error_count := 1 }) }

/-- C5 counterexample: with 1 error over 2 requests, the claimed value
`error_count / max(total_requests, 1)` is 1/2, but `get_status` reports 50 —
the code multiplies the fraction by 100 (a percentage) before rounding. -/
theorem get_status_error_rate_not_fraction :
    ((status_entries (get_status sample_settings c5_state)).map
        (fun entry => entry.usage.error_rate)).head? = some 50
    ∧ (1 : ℚ) / ((max 2 1 : Nat) : ℚ) < 50 := by
  constructor
  · norm_num [get_status, c5_state, status_entries, model_types_order, models,
      sample_settings, init_usage_stats, UsageStats.set, ModelUsage.init,
      py_round, py_round_int]
  · norm_num

/-- C5 (amended): for every profile, the error rate reported by `get_status`
is `round(error_count / max(total_requests, 1) * 100, 2)` — the error
fraction as a percentage, rounded half-to-even to two decimals. -/
theorem get_status_error_rate_formula :
    ∀ (s : Settings) (st : ManagerState) (mt : ModelType),
      st.inited = true →
      ∃ entry ∈ status_entries (get_status s st),
        entry.model_name = (models s mt).name
        ∧ entry.usage.error_rate
            = py_round (((st.usage_stats mt).error_count : ℚ)
                / (((max (st.usage_stats mt).total_requests 1 : Nat)) : ℚ) * 100) 2 := by
  intro s st mt hinit
  unfold get_status
  rw [hinit, if_neg (by simp)]
  dsimp only [status_entries]
  exact ⟨_, List.mem_map_of_mem _ (by cases mt <;> decide), rfl, rfl⟩

/-- Witness for C5's amended statement at the concrete counterexample state. -/
theorem get_status_error_rate_formula_witness :
    ∃ entry ∈ status_entries (get_status sample_settings c5_state),
      entry.model_name = (models sample_settings ModelType.chat).name
      ∧ entry.usage.error_rate
          = py_round (((c5_state.usage_stats ModelType.chat).error_count : ℚ)
              / (((max (c5_state.usage_stats ModelType.chat).total_requests 1 : Nat)) : ℚ)
                * 100) 2 :=
  get_status_error_rate_formula sample_settings c5_state ModelType.chat rfl

/-- A session whose last activity is far older than the 1800-second timeout
at sweep time 3600. -/
def stale_session : SessionData :=
  { session_id := "stale", created_at := 0, last_activity := 0, user_data := [],
    conversation_state := "greeting", messages := [], context := [] }

/-- A session active 100 seconds before sweep time 3600. -/
def fresh_session : SessionData :=
  { session_id := "fresh", created_at := 3500, last_activity := 3500, user_data := [],
    conversation_state := "greeting", messages := [], context := [] }

/-- A store holding exactly one stale and one fresh session. -/
def c4_store : CacheStore :=
  [("session:stale", stale_session), ("session:fresh", fresh_session)]

/-- C4: the sweep is broken — this is a code bug.  On a store with one stale
session (inactive 3600 s > the 1800 s timeout) and one fresh session, the
claim expects exactly the stale one removed and count 1; but `init_db`
configures the Redis client with `decode_responses=True`, so the keys
returned by `keys()` are already `str` and the loop's very first
`key.decode()` raises `AttributeError`, the blanket `except` swallows it, and
`cleanup_expired_sessions` removes nothing and returns 0. -/
theorem cleanup_expired_sessions_sweeps_nothing :
    ((3600 : ℚ) - stale_session.last_activity > ((session_ttl sample_settings : Nat) : ℚ))
    ∧ (3600 : ℚ) - fresh_session.last_activity ≤ ((session_ttl sample_settings : Nat) : ℚ)
    ∧ cleanup_expired_sessions sample_settings c4_store 3600 = (c4_store, 0) := by
  refine ⟨by norm_num [stale_session, session_ttl, sample_settings], ?_, ?_⟩
  · norm_num [fresh_session, session_ttl, sample_settings]
  · rfl
